import Mathlib

/-!
Verification development for the poll/reminder Discord bot (`src/bot.py`).

The embedding translates the bot's data model and the poll/reminder logic
into pure Lean functions:

* datetimes are modelled as integer second counts in the bot's single
  configured timezone, so `datetime.date()` becomes a floor division by
  86400 and `datetime.hour` a floor division of the remainder by 3600;
* the `votes` table (primary key `(poll_id, user_id, emoji)`) is a
  `Finset (Nat × Nat × String)`;
* the `reminders_sent` table, which the schema creates with **no**
  uniqueness constraint, is a `List (Nat × RKind)` (a multiset of rows,
  `INSERT` appends unconditionally);
* the reminder-type strings of the source (`'closed'`,
  `'j_minus_2_waiting'`, `'j_minus_1_waiting'`, `'weekly_waiting_<n>'`,
  `'non_voters_day_<d>'`) are represented by the inductive `RKind`, whose
  constructors correspond one-to-one to those pairwise-distinct strings;
* Discord side effects (DMs, message edits) are reified as the returned
  `TickEffect`: the new reminder ledger, the batches of direct messages
  sent (kind plus recipient-id set), and whether the poll message's
  button view was removed.
-/

namespace PollBot

/-- A row of the `votes` table: `(poll_id, user_id, emoji)`. -/
abbrev VoteRow := Nat × Nat × String

/-- A guild member as seen by the bot: id, bot flag, and whether
`channel.permissions_for(member).read_messages` holds for the poll's
channel. -/
structure Member where
  id : Nat
  bot : Bool
  can_read : Bool
deriving DecidableEq

/-- A row of the `polls` table (the columns the reminder/vote logic reads).
Times are absolute seconds in the bot's timezone. -/
structure Poll where
  id : Nat
  is_presence_poll : Bool
  allow_multiple : Bool
  event_date : Int
  max_date : Option Int
  created_at : Int
deriving DecidableEq

/-- The reminder-type strings stored in `reminders_sent.reminder_type`,
as an inductive: `closed` ↔ `'closed'`, `j_minus_2_waiting` ↔
`'j_minus_2_waiting'`, `j_minus_1_waiting` ↔ `'j_minus_1_waiting'`,
`weekly_waiting n` ↔ `'weekly_waiting_' + str(n)`, and
`non_voters_day d` ↔ `'non_voters_day_' + str(d)`; these strings are
pairwise distinct, which the constructors reflect. -/
inductive RKind where
  | closed
  | j_minus_2_waiting
  | j_minus_1_waiting
  | weekly_waiting (week : Nat)
  | non_voters_day (day : Int)
deriving DecidableEq

/-- A row of the `reminders_sent` table (the `sent_at` column is never
read back). The table is created without any uniqueness constraint. -/
abbrev RemRow := Nat × RKind

/-- One direct-message batch sent by a reminder/closure routine: the
reminder kind and the set of recipient user ids. -/
structure Notice where
  kind : RKind
  recipients : Finset Nat
deriving DecidableEq

/-- The observable outcome of one scheduler step on one poll. -/
structure TickEffect where
  reminders : List RemRow
  notices : List Notice
  view_removed : Bool
deriving DecidableEq

/-- The `'⏳'` emoji of the presence poll's `En attente` (Waiting) button. -/
def wait_emoji : String := "⏳"

/-- The ephemeral confirmation `handle_vote` answers with. -/
inductive VoteReply where
  | cancelled
  | added_multiple
  | recorded
deriving DecidableEq

/-- `SELECT emoji FROM votes WHERE poll_id=$1 AND user_id=$2` (as the
full rows). -/
def voter_rows (V : Finset VoteRow) (p u : Nat) : Finset VoteRow :=
  V.filter (fun v => v.1 = p ∧ v.2.1 = u)

/-- `BasePollView.handle_vote`: if the pressed emoji is among the user's
existing votes, delete that row (toggle off); otherwise, for a
single-choice view first delete all of the user's rows for this poll,
then insert the new row (`INSERT ... ON CONFLICT DO NOTHING`). The
function performs no check of the poll's deadline or open/closed
state — it never reads the poll row at all. -/
def handle_vote (allow_multiple : Bool) (p : Nat) (V : Finset VoteRow) (u : Nat) (e : String) :
    Finset VoteRow × VoteReply :=
  if (p, u, e) ∈ V then
    (V.erase (p, u, e), VoteReply.cancelled)
  else if allow_multiple then
    (insert (p, u, e) V, VoteReply.added_multiple)
  else
    (insert (p, u, e) (V.filter (fun v => ¬(v.1 = p ∧ v.2.1 = u))), VoteReply.recorded)

/-- The state captured by a poll view (`BasePollView.__init__`). -/
structure PollViewState where
  poll_id : Nat
  allow_multiple : Bool
deriving DecidableEq

/-- `PresencePollView.__init__` always passes `allow_multiple=False`. -/
def presence_poll_view (pid : Nat) : PollViewState := ⟨pid, false⟩

/-- A button callback on a poll's view: it forwards straight to
`handle_vote` with the view's stored mode; the poll's `max_date` and the
current time play no part. -/
def vote_interaction (poll : Poll) (V : Finset VoteRow) (u : Nat) (e : String) :
    Finset VoteRow × VoteReply :=
  handle_vote poll.allow_multiple poll.id V u e

/-- `_reminder_already_sent` with a healthy database: `SELECT * FROM
reminders_sent WHERE poll_id=$1 AND reminder_type=$2` found a row. -/
def reminder_already_sent (R : List RemRow) (p : Nat) (k : RKind) : Bool :=
  decide ((p, k) ∈ R)

/-- `_mark_reminder_sent`: `INSERT INTO reminders_sent (poll_id,
reminder_type) VALUES ($1, $2)` — a plain insert into a table with no
uniqueness constraint, i.e. an unconditional append. -/
def mark_reminder_sent (R : List RemRow) (p : Nat) (k : RKind) : List RemRow :=
  R ++ [(p, k)]

/-- `_reminder_already_sent` including its `try/except`: the argument is
the outcome of the database read (`Except.error` when the query raises);
on an exception the function returns `True`. -/
def reminder_already_sent_checked (fetch : Except Unit (List RemRow)) (p : Nat) (k : RKind) :
    Bool :=
  match fetch with
  | Except.error _ => true
  | Except.ok R => reminder_already_sent R p k

/-- The check-then-send-then-mark pattern every reminder rule uses
(`if not await _reminder_already_sent(...): send...; mark...`), with the
fallible check reified: `fetch` is the result of the ledger read, `R`
the ledger being written to. -/
def guarded_reminder_step (fetch : Except Unit (List RemRow)) (R : List RemRow) (p : Nat)
    (k : RKind) (recips : Finset Nat) : List RemRow × Option Notice :=
  if reminder_already_sent_checked fetch p k then (R, none)
  else (mark_reminder_sent R p k, some ⟨k, recips⟩)

/-- `voted_user_ids`: users with at least one vote row for the poll. -/
def voted_ids (V : Finset VoteRow) (p : Nat) : Finset Nat :=
  (V.filter (fun v => v.1 = p)).image (fun v => v.2.1)

/-- `waiting_user_ids`: users with a `'⏳'` vote row for the poll. -/
def waiting_ids (V : Finset VoteRow) (p : Nat) : Finset Nat :=
  (V.filter (fun v => v.1 = p ∧ v.2.2 = wait_emoji)).image (fun v => v.2.1)

/-- Recipient set of `send_waiting_reminder`: for each user with a `'⏳'`
vote, look the member up in the guild and skip missing members and bots
(no read-permission check is made on this path). -/
def waiting_recipients (p : Nat) (members : List Member) (V : Finset VoteRow) : Finset Nat :=
  ((members.filter (fun m => !m.bot && decide (m.id ∈ waiting_ids V p))).map Member.id).toFinset

/-- Recipient set shared by `send_non_voters_reminder` and `close_poll`:
non-bot members with read access who either have not voted or — for a
presence poll — voted `'⏳'`. -/
def non_voter_recipients (poll : Poll) (members : List Member) (V : Finset VoteRow) :
    Finset Nat :=
  ((members.filter (fun m => !m.bot && m.can_read &&
      (if poll.is_presence_poll then
        !(decide (m.id ∈ voted_ids V poll.id)) || decide (m.id ∈ waiting_ids V poll.id)
      else
        !(decide (m.id ∈ voted_ids V poll.id))))).map Member.id).toFinset

/-- Modelled from the spec: the AwaitingSet — audience members (non-bot,
with read access) having zero votes, unioned, for a presence poll, with
the members whose vote is Waiting (presence polls are single-choice, so
a Waiting row is that voter's only vote). Stated from the spec's words
for comparison with the recipient sets the code computes. -/
def spec_awaiting_set (poll : Poll) (members : List Member) (V : Finset VoteRow) : Finset Nat :=
  let audience := members.filter (fun m => !m.bot && m.can_read)
  let zero :=
    ((audience.filter (fun m => !(decide (m.id ∈ voted_ids V poll.id)))).map Member.id).toFinset
  let waiting :=
    ((audience.filter (fun m => decide (m.id ∈ waiting_ids V poll.id))).map Member.id).toFinset
  if poll.is_presence_poll then zero ∪ waiting else zero

/-- `datetime.date()` as a day index: floor division of local seconds. -/
def local_day (t : Int) : Int := Int.fdiv t 86400

/-- `datetime.hour` of a local-seconds timestamp. -/
def local_hour (t : Int) : Int := Int.fdiv (Int.emod t 86400) 3600

/-- One iteration of the weekly-reminder loop in
`check_and_send_reminders`: for week `w`, if `weekly_waiting_<w>` is
unfired and now is the same calendar day as `created_at + w` weeks with
the hour in 18..20, send the waiting reminder and record the kind. The
accumulator threads the ledger and the batches sent so far. -/
def weekly_step (poll : Poll) (now : Int) (members : List Member) (V : Finset VoteRow)
    (acc : List RemRow × List Notice) (w : Nat) : List RemRow × List Notice :=
  if reminder_already_sent acc.1 poll.id (RKind.weekly_waiting w) then acc
  else
    if local_day (poll.created_at + (w : Int) * 7 * 86400) = local_day now ∧
        18 ≤ local_hour now ∧ local_hour now ≤ 20 then
      (mark_reminder_sent acc.1 poll.id (RKind.weekly_waiting w),
       acc.2 ++ [⟨RKind.weekly_waiting w, waiting_recipients poll.id members V⟩])
    else acc

/-- `close_poll`: if `'closed'` already fired, do nothing. Otherwise
compute the non-voter/waiting recipients; only when that list is
non-empty are the buttons removed (`message.edit(view=None)`), the
display refreshed, and the closure DMs sent; in either case the
`'closed'` kind is then recorded. (The platform path — channel and
message found — is assumed available.) -/
def close_poll (poll : Poll) (members : List Member) (V : Finset VoteRow) (R : List RemRow) :
    TickEffect :=
  if reminder_already_sent R poll.id RKind.closed then ⟨R, [], false⟩
  else
    if non_voter_recipients poll members V = ∅ then
      ⟨mark_reminder_sent R poll.id RKind.closed, [], false⟩
    else
      ⟨mark_reminder_sent R poll.id RKind.closed,
       [⟨RKind.closed, non_voter_recipients poll members V⟩], true⟩

/-- `check_and_send_reminders` (the hourly tick, for one poll): close the
poll once the deadline has passed; otherwise fire the J-2 or J-1 waiting
reminder when the remaining time lies in the 47..49h resp. 23..25h
window and the kind is unfired; a poll without a deadline gets the
weekly waiting reminders when it is a presence poll
(`weeks = int(poll_age.days / 7)`, looping over weeks 1..weeks). -/
def check_and_send_reminders (poll : Poll) (now : Int) (members : List Member)
    (V : Finset VoteRow) (R : List RemRow) : TickEffect :=
  match poll.max_date with
  | some d =>
    if d ≤ now then close_poll poll members V R
    else if 47 * 3600 ≤ d - now ∧ d - now ≤ 49 * 3600 then
      if reminder_already_sent R poll.id RKind.j_minus_2_waiting then ⟨R, [], false⟩
      else
        ⟨mark_reminder_sent R poll.id RKind.j_minus_2_waiting,
         [⟨RKind.j_minus_2_waiting, waiting_recipients poll.id members V⟩], false⟩
    else if 23 * 3600 ≤ d - now ∧ d - now ≤ 25 * 3600 then
      if reminder_already_sent R poll.id RKind.j_minus_1_waiting then ⟨R, [], false⟩
      else
        ⟨mark_reminder_sent R poll.id RKind.j_minus_1_waiting,
         [⟨RKind.j_minus_1_waiting, waiting_recipients poll.id members V⟩], false⟩
    else ⟨R, [], false⟩
  | none =>
    if poll.is_presence_poll then
      let days := Int.fdiv (now - poll.created_at) 86400
      let res := ((List.range (Int.tdiv days 7).toNat).map (fun i => i + 1)).foldl
        (weekly_step poll now members V) (R, [])
      ⟨res.1, res.2, false⟩
    else ⟨R, [], false⟩

/-- The poll filter of `send_non_voters_biweekly_reminders`:
`max_date IS NULL OR max_date > now`. -/
def open_poll_filter (poll : Poll) (now : Int) : Bool :=
  match poll.max_date with
  | none => true
  | some d => decide (now < d)

/-- `send_non_voters_biweekly_reminders` (the 19h daily trigger, for one
poll): for a poll passing the open filter, with a positive, even number
of whole days since creation, fire the `non_voters_day_<d>` reminder to
the non-voter/waiting recipients if that kind is unfired. -/
def send_non_voters_biweekly_reminders (poll : Poll) (now : Int) (members : List Member)
    (V : Finset VoteRow) (R : List RemRow) : TickEffect :=
  if open_poll_filter poll now then
    let days := Int.fdiv (now - poll.created_at) 86400
    if 0 < days ∧ Int.emod days 2 = 0 then
      if reminder_already_sent R poll.id (RKind.non_voters_day days) then ⟨R, [], false⟩
      else
        ⟨mark_reminder_sent R poll.id (RKind.non_voters_day days),
         [⟨RKind.non_voters_day days, non_voter_recipients poll members V⟩], false⟩
    else ⟨R, [], false⟩
  else ⟨R, [], false⟩

/-- `Config.MAX_EVENT_DAYS_AHEAD`. -/
def MAX_EVENT_DAYS_AHEAD : Int := 730

/-- Outcome of `DateModal._validate_dates` (which error string, if any). -/
inductive ValidationResult where
  | ok
  | event_in_past
  | event_too_far
  | deadline_in_past
  | deadline_after_event
deriving DecidableEq

/-- `DateModal._validate_dates`: event date not before now; at most
`MAX_EVENT_DAYS_AHEAD` whole days ahead (`(event_dt - now).days`, a floor
division); an optional deadline not before now and not after the event
date. -/
def validate_dates (now event_dt : Int) (max_dt : Option Int) : ValidationResult :=
  if event_dt < now then ValidationResult.event_in_past
  else if MAX_EVENT_DAYS_AHEAD < Int.fdiv (event_dt - now) 86400 then
    ValidationResult.event_too_far
  else
    match max_dt with
    | some m =>
      if m < now then ValidationResult.deadline_in_past
      else if event_dt < m then ValidationResult.deadline_after_event
      else ValidationResult.ok
    | none => ValidationResult.ok

/-- `DateModal.on_submit` after a successful parse: on a validation error
the error is surfaced and nothing is created; otherwise `create_poll`
inserts the poll row. -/
def date_modal_submit (now event_dt : Int) (max_dt : Option Int)
    (is_presence allow_multiple : Bool) : Option Poll × ValidationResult :=
  if validate_dates now event_dt max_dt = ValidationResult.ok then
    (some ⟨1, is_presence, allow_multiple, event_dt, max_dt, now⟩,
     ValidationResult.ok)
  else (none, validate_dates now event_dt max_dt)

/-- What `poll_command` does before opening the date modal. -/
inductive PollCommandResult where
  | presence_modal
  | too_few_choices
  | classic_modal (allow_multiple : Bool)
deriving DecidableEq

/-- `poll_command`: keep the truthy (given and non-empty) choices; with
none, open the presence modal (single-choice); with exactly one, report
that at least two choices are needed; otherwise open the classic modal
with `allow_multiple = not single`. -/
def poll_command (single : Bool) (choices : List (Option String)) : PollCommandResult :=
  let options := (choices.filterMap id).filter (fun c => c != "")
  if options = [] then PollCommandResult.presence_modal
  else if options.length < 2 then PollCommandResult.too_few_choices
  else PollCommandResult.classic_modal (!single)

/-- Number of notification batches of kind `k` in a tick's output. -/
def kind_notice_count (k : RKind) (ns : List Notice) : Nat :=
  List.countP (fun n => decide (n.kind = k)) ns

/-- The exactly-once discipline for the (poll `p`, kind `k`) pair, as a
relation between the (ledger, batches) state before and after one
reminder action: either nothing about the pair changes and no batch of
the kind is emitted, or the record count goes from zero to one together
with exactly one new batch of the kind. -/
def once_rel (p : Nat) (k : RKind) (acc res : List RemRow × List Notice) : Prop :=
  (List.count (p, k) res.1 = List.count (p, k) acc.1 ∧
    kind_notice_count k res.2 = kind_notice_count k acc.2) ∨
  (List.count (p, k) acc.1 = 0 ∧ List.count (p, k) res.1 = 1 ∧
    kind_notice_count k res.2 = kind_notice_count k acc.2 + 1)

/-- Iterating the vote handler over a sequence of button presses by one
voter on one poll. -/
def toggle_sequence (am : Bool) (p u : Nat) (V : Finset VoteRow) (es : List String) :
    Finset VoteRow :=
  es.foldl (fun acc e => (handle_vote am p acc u e).1) V

/-! ## Helper lemmas -/

lemma handle_vote_fst_ne (am : Bool) (p : Nat) (V : Finset VoteRow) (u : Nat) (e : String) :
    (handle_vote am p V u e).1 ≠ V := by
  unfold handle_vote
  by_cases hx : (p, u, e) ∈ V
  · rw [if_pos hx]
    show V.erase (p, u, e) ≠ V
    rw [ne_eq, Finset.erase_eq_self]
    exact not_not_intro hx
  · rw [if_neg hx]
    cases am with
    | true =>
      rw [if_pos rfl]
      show insert (p, u, e) V ≠ V
      intro hEq
      exact hx (hEq ▸ Finset.mem_insert_self _ _)
    | false =>
      rw [if_neg Bool.false_ne_true]
      show insert (p, u, e) (V.filter (fun v => ¬(v.1 = p ∧ v.2.1 = u))) ≠ V
      intro hEq
      exact hx (hEq ▸ Finset.mem_insert_self _ _)

lemma voter_rows_card_le_one_step (p u : Nat) (V : Finset VoteRow) (e : String)
    (h : (voter_rows V p u).card ≤ 1) :
    (voter_rows (handle_vote false p V u e).1 p u).card ≤ 1 := by
  unfold handle_vote
  by_cases hx : (p, u, e) ∈ V
  · rw [if_pos hx]
    show (voter_rows (V.erase (p, u, e)) p u).card ≤ 1
    refine le_trans (Finset.card_le_card ?_) h
    exact Finset.filter_subset_filter _ (Finset.erase_subset _ _)
  · rw [if_neg hx, if_neg Bool.false_ne_true]
    show (voter_rows (insert (p, u, e) (V.filter (fun v => ¬(v.1 = p ∧ v.2.1 = u)))) p u).card ≤ 1
    unfold voter_rows
    rw [Finset.filter_insert, if_pos ⟨rfl, rfl⟩, Finset.filter_filter]
    have hempty : (V.filter (fun v => ¬(v.1 = p ∧ v.2.1 = u) ∧ (v.1 = p ∧ v.2.1 = u))) = ∅ := by
      apply Finset.filter_false_of_mem
      intro v _ hc
      exact hc.1 hc.2
    rw [hempty]
    simp

lemma toggle_sequence_card (p u : Nat) (es : List String) :
    ∀ V : Finset VoteRow, (voter_rows V p u).card ≤ 1 →
      (voter_rows (toggle_sequence false p u V es) p u).card ≤ 1 := by
  induction es with
  | nil => intro V h; exact h
  | cons e es ih =>
    intro V h
    exact ih _ (voter_rows_card_le_one_step p u V e h)

lemma check_and_send_reminders_some (poll : Poll) (now : Int) (members : List Member)
    (V : Finset VoteRow) (R : List RemRow) (d : Int) (hd : poll.max_date = some d) :
    check_and_send_reminders poll now members V R =
      (if d ≤ now then close_poll poll members V R
       else if 47 * 3600 ≤ d - now ∧ d - now ≤ 49 * 3600 then
         (if reminder_already_sent R poll.id RKind.j_minus_2_waiting then ⟨R, [], false⟩
          else ⟨mark_reminder_sent R poll.id RKind.j_minus_2_waiting,
                [⟨RKind.j_minus_2_waiting, waiting_recipients poll.id members V⟩], false⟩)
       else if 23 * 3600 ≤ d - now ∧ d - now ≤ 25 * 3600 then
         (if reminder_already_sent R poll.id RKind.j_minus_1_waiting then ⟨R, [], false⟩
          else ⟨mark_reminder_sent R poll.id RKind.j_minus_1_waiting,
                [⟨RKind.j_minus_1_waiting, waiting_recipients poll.id members V⟩], false⟩)
       else ⟨R, [], false⟩) := by
  unfold check_and_send_reminders
  rw [hd]

lemma tick_j2_fires (poll : Poll) (now d : Int) (members : List Member) (V : Finset VoteRow)
    (R : List RemRow) (hd : poll.max_date = some d)
    (hw : 47 * 3600 ≤ d - now ∧ d - now ≤ 49 * 3600)
    (hns : reminder_already_sent R poll.id RKind.j_minus_2_waiting = false) :
    check_and_send_reminders poll now members V R =
      ⟨mark_reminder_sent R poll.id RKind.j_minus_2_waiting,
       [⟨RKind.j_minus_2_waiting, waiting_recipients poll.id members V⟩], false⟩ := by
  rw [check_and_send_reminders_some poll now members V R d hd]
  rw [if_neg (by omega : ¬ d ≤ now), if_pos hw, if_neg (by simp [hns])]

lemma tick_j2_skips (poll : Poll) (now d : Int) (members : List Member) (V : Finset VoteRow)
    (R : List RemRow) (hd : poll.max_date = some d)
    (hw : 47 * 3600 ≤ d - now ∧ d - now ≤ 49 * 3600)
    (hs : reminder_already_sent R poll.id RKind.j_minus_2_waiting = true) :
    check_and_send_reminders poll now members V R = ⟨R, [], false⟩ := by
  rw [check_and_send_reminders_some poll now members V R d hd]
  rw [if_neg (by omega : ¬ d ≤ now), if_pos hw, if_pos hs]

lemma tick_j1_fires (poll : Poll) (now d : Int) (members : List Member) (V : Finset VoteRow)
    (R : List RemRow) (hd : poll.max_date = some d)
    (hw : 23 * 3600 ≤ d - now ∧ d - now ≤ 25 * 3600)
    (hns : reminder_already_sent R poll.id RKind.j_minus_1_waiting = false) :
    check_and_send_reminders poll now members V R =
      ⟨mark_reminder_sent R poll.id RKind.j_minus_1_waiting,
       [⟨RKind.j_minus_1_waiting, waiting_recipients poll.id members V⟩], false⟩ := by
  rw [check_and_send_reminders_some poll now members V R d hd]
  rw [if_neg (by omega : ¬ d ≤ now),
    if_neg (by omega : ¬ (47 * 3600 ≤ d - now ∧ d - now ≤ 49 * 3600)),
    if_pos hw, if_neg (by simp [hns])]

lemma non_voter_recipients_eq_spec (poll : Poll) (members : List Member) (V : Finset VoteRow) :
    non_voter_recipients poll members V = spec_awaiting_set poll members V := by
  unfold non_voter_recipients spec_awaiting_set
  by_cases hp : poll.is_presence_poll = true
  · simp only [hp, if_true]
    ext x
    simp only [List.mem_toFinset, List.mem_map, List.mem_filter, Finset.mem_union,
      Bool.and_eq_true, Bool.or_eq_true, Bool.not_eq_true', decide_eq_false_iff_not,
      decide_eq_true_eq, if_true]
    constructor
    · rintro ⟨m, ⟨hm, ⟨hb, hr⟩, hcond⟩, hid⟩
      rcases hcond with hnv | hw
      · exact Or.inl ⟨m, ⟨⟨hm, hb, hr⟩, hnv⟩, hid⟩
      · exact Or.inr ⟨m, ⟨⟨hm, hb, hr⟩, hw⟩, hid⟩
    · rintro (⟨m, ⟨⟨hm, hb, hr⟩, hnv⟩, hid⟩ | ⟨m, ⟨⟨hm, hb, hr⟩, hw⟩, hid⟩)
      · exact ⟨m, ⟨hm, ⟨hb, hr⟩, Or.inl hnv⟩, hid⟩
      · exact ⟨m, ⟨hm, ⟨hb, hr⟩, Or.inr hw⟩, hid⟩
  · simp only [if_neg hp]
    ext x
    simp only [List.mem_toFinset, List.mem_map, List.mem_filter,
      Bool.and_eq_true, Bool.not_eq_true', decide_eq_false_iff_not, decide_eq_true_eq]
    constructor
    · rintro ⟨m, ⟨hm, ⟨hb, hr⟩, hnv⟩, hid⟩
      exact ⟨m, ⟨⟨hm, hb, hr⟩, hnv⟩, hid⟩
    · rintro ⟨m, ⟨⟨hm, hb, hr⟩, hnv⟩, hid⟩
      exact ⟨m, ⟨hm, ⟨hb, hr⟩, hnv⟩, hid⟩

lemma check_and_send_reminders_none (poll : Poll) (now : Int) (members : List Member)
    (V : Finset VoteRow) (R : List RemRow) (hd : poll.max_date = none) :
    check_and_send_reminders poll now members V R =
      (if poll.is_presence_poll then
        ⟨(((List.range (Int.tdiv (Int.fdiv (now - poll.created_at) 86400) 7).toNat).map
            (fun i => i + 1)).foldl (weekly_step poll now members V) (R, [])).1,
         (((List.range (Int.tdiv (Int.fdiv (now - poll.created_at) 86400) 7).toNat).map
            (fun i => i + 1)).foldl (weekly_step poll now members V) (R, [])).2, false⟩
      else ⟨R, [], false⟩) := by
  unfold check_and_send_reminders
  rw [hd]

lemma send_non_voters_biweekly_eq (poll : Poll) (now : Int) (members : List Member)
    (V : Finset VoteRow) (R : List RemRow) :
    send_non_voters_biweekly_reminders poll now members V R =
      (if open_poll_filter poll now then
        (if 0 < Int.fdiv (now - poll.created_at) 86400 ∧
            Int.emod (Int.fdiv (now - poll.created_at) 86400) 2 = 0 then
          (if reminder_already_sent R poll.id
              (RKind.non_voters_day (Int.fdiv (now - poll.created_at) 86400)) then
            ⟨R, [], false⟩
          else
            ⟨mark_reminder_sent R poll.id
               (RKind.non_voters_day (Int.fdiv (now - poll.created_at) 86400)),
             [⟨RKind.non_voters_day (Int.fdiv (now - poll.created_at) 86400),
               non_voter_recipients poll members V⟩], false⟩)
        else ⟨R, [], false⟩)
      else ⟨R, [], false⟩) :=
  rfl

lemma mem_mark_reminder_sent {r : RemRow} {R : List RemRow} {p : Nat} {k : RKind}
    (h : r ∈ mark_reminder_sent R p k) :
    r ∈ R ∨ r = (p, k) := by
  unfold mark_reminder_sent at h
  rcases List.mem_append.mp h with h | h
  · exact Or.inl h
  · exact Or.inr (List.mem_singleton.mp h)

lemma mark_not_non_voters {r : RemRow} {R : List RemRow} {p : Nat} {k : RKind}
    (hk : ∀ day : Int, k ≠ RKind.non_voters_day day)
    (h : r ∈ mark_reminder_sent R p k) :
    r ∈ R ∨ ∀ day : Int, r.2 ≠ RKind.non_voters_day day := by
  rcases mem_mark_reminder_sent h with h | h
  · exact Or.inl h
  · right
    intro day
    rw [h]
    exact hk day

lemma weekly_step_fst_mem (poll : Poll) (now : Int) (members : List Member) (V : Finset VoteRow)
    (acc : List RemRow × List Notice) (w : Nat) (r : RemRow)
    (hr : r ∈ (weekly_step poll now members V acc w).1) :
    r ∈ acc.1 ∨ r = (poll.id, RKind.weekly_waiting w) := by
  unfold weekly_step at hr
  split at hr
  · exact Or.inl hr
  · split at hr
    · exact mem_mark_reminder_sent hr
    · exact Or.inl hr

lemma weekly_foldl_fst_mem (poll : Poll) (now : Int) (members : List Member) (V : Finset VoteRow)
    (ws : List Nat) (r : RemRow) :
    ∀ acc : List RemRow × List Notice,
      r ∈ (ws.foldl (weekly_step poll now members V) acc).1 →
      r ∈ acc.1 ∨ ∃ w : Nat, r = (poll.id, RKind.weekly_waiting w) := by
  induction ws with
  | nil => exact fun acc hr => Or.inl hr
  | cons w ws ih =>
    intro acc hr
    rw [List.foldl_cons] at hr
    rcases ih (weekly_step poll now members V acc w) hr with h | h
    · rcases weekly_step_fst_mem poll now members V acc w r h with h2 | h2
      · exact Or.inl h2
      · exact Or.inr ⟨w, h2⟩
    · exact Or.inr h

lemma hourly_tick_no_non_voters_kind (poll : Poll) (now : Int) (members : List Member)
    (V : Finset VoteRow) (R : List RemRow) (r : RemRow)
    (hr : r ∈ (check_and_send_reminders poll now members V R).reminders) :
    r ∈ R ∨ ∀ day : Int, r.2 ≠ RKind.non_voters_day day := by
  cases hmd : poll.max_date with
  | some d =>
    rw [check_and_send_reminders_some poll now members V R d hmd] at hr
    by_cases h1 : d ≤ now
    · rw [if_pos h1] at hr
      by_cases h2 : reminder_already_sent R poll.id RKind.closed = true
      · unfold close_poll at hr
        rw [if_pos h2] at hr
        exact Or.inl hr
      · unfold close_poll at hr
        rw [if_neg h2] at hr
        by_cases h3 : non_voter_recipients poll members V = ∅
        · rw [if_pos h3] at hr
          exact mark_not_non_voters (fun day h => RKind.noConfusion h) hr
        · rw [if_neg h3] at hr
          exact mark_not_non_voters (fun day h => RKind.noConfusion h) hr
    · rw [if_neg h1] at hr
      by_cases h2 : 47 * 3600 ≤ d - now ∧ d - now ≤ 49 * 3600
      · rw [if_pos h2] at hr
        by_cases h3 : reminder_already_sent R poll.id RKind.j_minus_2_waiting = true
        · rw [if_pos h3] at hr
          exact Or.inl hr
        · rw [if_neg h3] at hr
          exact mark_not_non_voters (fun day h => RKind.noConfusion h) hr
      · rw [if_neg h2] at hr
        by_cases h3 : 23 * 3600 ≤ d - now ∧ d - now ≤ 25 * 3600
        · rw [if_pos h3] at hr
          by_cases h4 : reminder_already_sent R poll.id RKind.j_minus_1_waiting = true
          · rw [if_pos h4] at hr
            exact Or.inl hr
          · rw [if_neg h4] at hr
            exact mark_not_non_voters (fun day h => RKind.noConfusion h) hr
        · rw [if_neg h3] at hr
          exact Or.inl hr
  | none =>
    rw [check_and_send_reminders_none poll now members V R hmd] at hr
    by_cases hp : poll.is_presence_poll = true
    · rw [if_pos hp] at hr
      have hr2 := weekly_foldl_fst_mem poll now members V
        ((List.range (Int.tdiv (Int.fdiv (now - poll.created_at) 86400) 7).toNat).map
          (fun i => i + 1)) r (R, []) hr
      rcases hr2 with h | ⟨w, h⟩
      · exact Or.inl h
      · right
        intro day
        rw [h]
        exact fun hcon => RKind.noConfusion hcon
    · rw [if_neg hp] at hr
      exact Or.inl hr

lemma count_mark_reminder_sent (R : List RemRow) (p p' : Nat) (k k' : RKind) :
    List.count (p, k) (mark_reminder_sent R p' k') =
      List.count (p, k) R + (if (p, k) = (p', k') then 1 else 0) := by
  unfold mark_reminder_sent
  rw [List.count_append]
  by_cases h : (p, k) = (p', k')
  · rw [if_pos h, h]
    simp
  · rw [if_neg h]
    simp [List.count_cons, h]

lemma kind_notice_count_nil (k : RKind) : kind_notice_count k [] = 0 := rfl

lemma kind_notice_count_single (k k0 : RKind) (s : Finset Nat) :
    kind_notice_count k [⟨k0, s⟩] = (if k0 = k then 1 else 0) := by
  by_cases h : k0 = k <;> simp [kind_notice_count, List.countP_cons, h]

lemma kind_notice_count_append_one (k k0 : RKind) (ns : List Notice) (s : Finset Nat) :
    kind_notice_count k (ns ++ [⟨k0, s⟩]) =
      kind_notice_count k ns + (if k0 = k then 1 else 0) := by
  unfold kind_notice_count
  rw [List.countP_append]
  by_cases h : k0 = k <;> simp [List.countP_cons, h]

lemma once_rel_trans {p : Nat} {k : RKind} {a b c : List RemRow × List Notice}
    (hab : once_rel p k a b) (hbc : once_rel p k b c) : once_rel p k a c := by
  rcases hab with ⟨hc1, hn1⟩ | ⟨hz1, ho1, hn1⟩
  · rcases hbc with ⟨hc2, hn2⟩ | ⟨hz2, ho2, hn2⟩
    · exact Or.inl ⟨hc2.trans hc1, hn2.trans hn1⟩
    · right
      refine ⟨hc1 ▸ hz2, ho2, ?_⟩
      rw [hn2, hn1]
  · rcases hbc with ⟨hc2, hn2⟩ | ⟨hz2, ho2, hn2⟩
    · exact Or.inr ⟨hz1, hc2.trans ho1, hn2.trans hn1⟩
    · rw [ho1] at hz2
      exact absurd hz2 one_ne_zero

lemma weekly_step_once (poll : Poll) (now : Int) (members : List Member) (V : Finset VoteRow)
    (k : RKind) (acc : List RemRow × List Notice) (w : Nat) :
    once_rel poll.id k acc (weekly_step poll now members V acc w) := by
  unfold weekly_step
  split
  · exact Or.inl ⟨rfl, rfl⟩
  · next hsent =>
    split
    · by_cases hk : k = RKind.weekly_waiting w
      · subst hk
        have hnot : (poll.id, RKind.weekly_waiting w) ∉ acc.1 := by
          simpa [reminder_already_sent] using hsent
        right
        refine ⟨List.count_eq_zero.mpr hnot, ?_, ?_⟩
        · show List.count (poll.id, RKind.weekly_waiting w)
              (mark_reminder_sent acc.1 poll.id (RKind.weekly_waiting w)) = 1
          rw [count_mark_reminder_sent, if_pos rfl, List.count_eq_zero.mpr hnot]
        · show kind_notice_count (RKind.weekly_waiting w)
              (acc.2 ++ [⟨RKind.weekly_waiting w, waiting_recipients poll.id members V⟩]) =
            kind_notice_count (RKind.weekly_waiting w) acc.2 + 1
          rw [kind_notice_count_append_one, if_pos rfl]
      · left
        constructor
        · show List.count (poll.id, k)
              (mark_reminder_sent acc.1 poll.id (RKind.weekly_waiting w)) =
            List.count (poll.id, k) acc.1
          rw [count_mark_reminder_sent, if_neg (by simp [hk]), Nat.add_zero]
        · show kind_notice_count k
              (acc.2 ++ [⟨RKind.weekly_waiting w, waiting_recipients poll.id members V⟩]) =
            kind_notice_count k acc.2
          rw [kind_notice_count_append_one, if_neg (fun hcon => hk hcon.symm), Nat.add_zero]
    · exact Or.inl ⟨rfl, rfl⟩

lemma weekly_foldl_once (poll : Poll) (now : Int) (members : List Member) (V : Finset VoteRow)
    (k : RKind) (ws : List Nat) :
    ∀ acc : List RemRow × List Notice,
      once_rel poll.id k acc (ws.foldl (weekly_step poll now members V) acc) := by
  induction ws with
  | nil => exact fun acc => Or.inl ⟨rfl, rfl⟩
  | cons w ws ih =>
    intro acc
    rw [List.foldl_cons]
    exact once_rel_trans (weekly_step_once poll now members V k acc w) (ih _)

lemma bool_false_or_true (b : Bool) : b = false ∨ b = true := by
  cases b
  · exact Or.inl rfl
  · exact Or.inr rfl

lemma fired_once (R : List RemRow) (p : Nat) (k k0 : RKind) (s : Finset Nat) (extra : Prop)
    (hns : reminder_already_sent R p k0 = false) :
    (List.count (p, k) (mark_reminder_sent R p k0) = List.count (p, k) R ∧
      kind_notice_count k [⟨k0, s⟩] = 0) ∨
    (List.count (p, k) R = 0 ∧ List.count (p, k) (mark_reminder_sent R p k0) = 1 ∧
      (kind_notice_count k [⟨k0, s⟩] = 1 ∨ extra)) := by
  by_cases hk : k = k0
  · subst hk
    have hnot : (p, k) ∉ R := by simpa [reminder_already_sent] using hns
    right
    refine ⟨List.count_eq_zero.mpr hnot, ?_, Or.inl ?_⟩
    · rw [count_mark_reminder_sent, if_pos rfl, List.count_eq_zero.mpr hnot]
    · rw [kind_notice_count_single, if_pos rfl]
  · left
    constructor
    · rw [count_mark_reminder_sent, if_neg (by simp [hk]), Nat.add_zero]
    · rw [kind_notice_count_single, if_neg (fun hcon => hk hcon.symm)]

/-! ## Claims -/

/-- C1, counterexample: the poll below is CLOSED (its deadline, 100, is
before the interaction time 500), yet a vote interaction from voter 7 on
the Present choice is not rejected — it inserts a row, so the vote
ledger does not stay unchanged as the claim states. -/
theorem C1_counterexample :
    (Poll.mk 1 true false 200 (some 100) 0).max_date = some 100 ∧
    (100 : Int) ≤ 500 ∧
    (vote_interaction (Poll.mk 1 true false 200 (some 100) 0) (∅ : Finset VoteRow) 7 "✅").1 ≠
      (∅ : Finset VoteRow) := by
  refine ⟨rfl, by decide, by decide⟩

/-- C1, amended: a vote interaction on a CLOSED poll is not rejected and
does not leave the ledger unchanged: the handler never reads the
deadline — replacing `max_date` by anything gives the identical outcome
— and every interaction mutates the vote ledger (a toggle always either
inserts or deletes a row). -/
theorem C1_thm (poll : Poll) (d : Option Int) (V : Finset VoteRow) (u : Nat) (e : String) :
    vote_interaction ⟨poll.id, poll.is_presence_poll, poll.allow_multiple, poll.event_date, d,
      poll.created_at⟩ V u e = vote_interaction poll V u e ∧
    (vote_interaction poll V u e).1 ≠ V :=
  ⟨rfl, handle_vote_fst_ne poll.allow_multiple poll.id V u e⟩

/-- C7, counterexample: on a single-choice poll where voter 1 already
voted choice A, pressing choice B twice does not restore the initial
ledger: the first press replaces A by B, the second removes B, leaving
the voter with no vote instead of the original A. -/
theorem C7_counterexample :
    (handle_vote false 1
        (handle_vote false 1 ({(1, 1, "🇦")} : Finset VoteRow) 1 "🇧").1 1 "🇧").1 ≠
      ({(1, 1, "🇦")} : Finset VoteRow) := by
  decide

/-- C7, amended: running the vote handler twice with the same choice is
the identity on the ledger for every multiple-choice poll, and for a
single-choice poll whenever the voter's existing rows are limited to the
pressed choice; for a single-choice poll with a prior vote on a
different choice, the pair of runs instead erases that prior vote
(second run nets to the replace of the first, not to a no-op). -/
theorem C7_thm (am : Bool) (p u : Nat) (V : Finset VoteRow) (e : String)
    (h : am = true ∨ ∀ v ∈ voter_rows V p u, v = (p, u, e)) :
    (handle_vote am p (handle_vote am p V u e).1 u e).1 = V := by
  cases am with
  | true =>
    by_cases hx : (p, u, e) ∈ V
    · have h1 : (handle_vote true p V u e).1 = V.erase (p, u, e) := by
        unfold handle_vote; rw [if_pos hx]
      rw [h1]
      unfold handle_vote
      rw [if_neg (Finset.not_mem_erase _ _), if_pos rfl]
      show insert (p, u, e) (V.erase (p, u, e)) = V
      exact Finset.insert_erase hx
    · have h1 : (handle_vote true p V u e).1 = insert (p, u, e) V := by
        unfold handle_vote; rw [if_neg hx, if_pos rfl]
      rw [h1]
      unfold handle_vote
      rw [if_pos (Finset.mem_insert_self _ _)]
      show (insert (p, u, e) V).erase (p, u, e) = V
      exact Finset.erase_insert hx
  | false =>
    have hall : ∀ v ∈ voter_rows V p u, v = (p, u, e) := h.resolve_left (by simp)
    by_cases hx : (p, u, e) ∈ V
    · have h1 : (handle_vote false p V u e).1 = V.erase (p, u, e) := by
        unfold handle_vote; rw [if_pos hx]
      rw [h1]
      unfold handle_vote
      rw [if_neg (Finset.not_mem_erase _ _), if_neg Bool.false_ne_true]
      show insert (p, u, e) ((V.erase (p, u, e)).filter (fun v => ¬(v.1 = p ∧ v.2.1 = u))) = V
      have hf : (V.erase (p, u, e)).filter (fun v => ¬(v.1 = p ∧ v.2.1 = u)) =
          V.erase (p, u, e) := by
        apply Finset.filter_eq_self.mpr
        intro v hv hvr
        have hvV : v ∈ V := Finset.mem_of_mem_erase hv
        have hve : v = (p, u, e) := hall v (Finset.mem_filter.mpr ⟨hvV, hvr⟩)
        exact (Finset.mem_erase.mp hv).1 hve
      rw [hf]
      exact Finset.insert_erase hx
    · have hf : V.filter (fun v => ¬(v.1 = p ∧ v.2.1 = u)) = V := by
        apply Finset.filter_eq_self.mpr
        intro v hv hvr
        have hve : v = (p, u, e) := hall v (Finset.mem_filter.mpr ⟨hv, hvr⟩)
        exact hx (hve ▸ hv)
      have h1 : (handle_vote false p V u e).1 = insert (p, u, e) V := by
        unfold handle_vote; rw [if_neg hx, if_neg Bool.false_ne_true]
        show insert (p, u, e) (V.filter (fun v => ¬(v.1 = p ∧ v.2.1 = u))) = insert (p, u, e) V
        rw [hf]
      rw [h1]
      unfold handle_vote
      rw [if_pos (Finset.mem_insert_self _ _)]
      show (insert (p, u, e) V).erase (p, u, e) = V
      exact Finset.erase_insert hx

/-- C7, witness: a voter with no prior vote toggles the same presence
choice twice on a single-choice poll; the ledger returns to empty. -/
theorem C7_witness :
    (handle_vote false 1 (handle_vote false 1 (∅ : Finset VoteRow) 1 "✅").1 1 "✅").1 =
      (∅ : Finset VoteRow) :=
  C7_thm false 1 1 ∅ "✅" (Or.inr (by decide))

/-- C8: presence-poll views are always single-choice, and on a
single-choice poll, starting from a ledger where the voter holds at most
one row, any sequence of vote interactions by that voter leaves at most
one row of theirs: a toggle-off only deletes, and a new vote first
deletes all of the voter's rows before inserting one. -/
theorem C8_thm (p u : Nat) (V : Finset VoteRow) (es : List String)
    (h : (voter_rows V p u).card ≤ 1) :
    (∀ pid, (presence_poll_view pid).allow_multiple = false) ∧
    (voter_rows (toggle_sequence false p u V es) p u).card ≤ 1 :=
  ⟨fun _ => rfl, toggle_sequence_card p u es V h⟩

/-- C8, witness: three presses on a presence poll starting from an empty
ledger leave voter 1 with at most one row. -/
theorem C8_witness :
    (∀ pid, (presence_poll_view pid).allow_multiple = false) ∧
    (voter_rows (toggle_sequence false 1 1 (∅ : Finset VoteRow) ["✅", "⏳", "✅"]) 1 1).card ≤ 1 :=
  C8_thm 1 1 ∅ ["✅", "⏳", "✅"] (by decide)

/-- C2, counterexample: a presence poll 24h before its deadline fires
the J-1 reminder, but the notified set is empty although the AwaitingSet
(per the spec's definition) contains the zero-vote audience member 5:
the code notifies only the Waiting voters, never the non-voters. -/
theorem C2_counterexample :
    (check_and_send_reminders (Poll.mk 1 true false 999999 (some 86400) 0) 0
        [Member.mk 5 false true] (∅ : Finset VoteRow) []).notices =
      [⟨RKind.j_minus_1_waiting, (∅ : Finset Nat)⟩] ∧
    spec_awaiting_set (Poll.mk 1 true false 999999 (some 86400) 0) [Member.mk 5 false true]
      (∅ : Finset VoteRow) = {5} ∧
    (∅ : Finset Nat) ≠ ({5} : Finset Nat) := by
  refine ⟨by decide, by decide, by decide⟩

/-- C2, amended: when a deadline-relative nudge (the 47..49h or the
23..25h window) fires, the set of recipients is exactly the non-bot
guild members whose recorded vote is the Waiting emoji — zero-vote
audience members receive nothing, and for a non-presence poll (whose
choices use letter emojis) the recipient set is empty. -/
theorem C2_thm (poll : Poll) (now d : Int) (members : List Member) (V : Finset VoteRow)
    (R : List RemRow) (hd : poll.max_date = some d) :
    (47 * 3600 ≤ d - now ∧ d - now ≤ 49 * 3600 →
      reminder_already_sent R poll.id RKind.j_minus_2_waiting = false →
      (check_and_send_reminders poll now members V R).notices =
        [⟨RKind.j_minus_2_waiting, waiting_recipients poll.id members V⟩]) ∧
    (23 * 3600 ≤ d - now ∧ d - now ≤ 25 * 3600 →
      reminder_already_sent R poll.id RKind.j_minus_1_waiting = false →
      (check_and_send_reminders poll now members V R).notices =
        [⟨RKind.j_minus_1_waiting, waiting_recipients poll.id members V⟩]) := by
  constructor
  · intro hw hns
    rw [tick_j2_fires poll now d members V R hd hw hns]
  · intro hw hns
    rw [tick_j1_fires poll now d members V R hd hw hns]

/-- C2, witness: a presence poll 48h before its deadline fires the J-2
reminder to exactly its one Waiting voter. -/
theorem C2_witness :
    (check_and_send_reminders (Poll.mk 1 true false 999999 (some 172800) 0) 0
        [Member.mk 3 false true] ({(1, 3, "⏳")} : Finset VoteRow) []).notices =
      [⟨RKind.j_minus_2_waiting, ({3} : Finset Nat)⟩] := by
  have h := (C2_thm (Poll.mk 1 true false 999999 (some 172800) 0) 0 172800
      [Member.mk 3 false true] ({(1, 3, "⏳")} : Finset VoteRow) [] rfl).1
      (by decide) (by decide)
  rw [h]
  decide

/-- C3, counterexample: the `reminders_sent` table has no uniqueness
constraint, so a second `markReminderFired` call for the same
(poll, kind) is not a no-op: it inserts a second row, after which the
ledger holds two ReminderRecords for the pair. -/
theorem C3_counterexample :
    mark_reminder_sent (mark_reminder_sent [] 1 RKind.closed) 1 RKind.closed ≠
      mark_reminder_sent [] 1 RKind.closed ∧
    List.count ((1 : Nat), RKind.closed)
      (mark_reminder_sent (mark_reminder_sent [] 1 RKind.closed) 1 RKind.closed) = 2 := by
  refine ⟨by decide, by decide⟩

/-- C3, amended: for every (poll, kind) pair and either scheduler
trigger, one tick either leaves the pair's ReminderRecord count
unchanged and emits no batch of that kind, or — only when no record for
the pair exists — appends exactly one record together with exactly one
batch, except that the `closed` kind with an empty AwaitingSet records
without a batch. Hence once a record exists, no later tick can add
another or send another batch (the second disjunct needs a zero count),
so repeated ticks whose condition stays true produce exactly one
ReminderRecord and at most one batch; this comes from the
check-before-mark discipline, not the store, which enforces no
uniqueness (see the counterexample: a second direct `markReminderFired`
inserts a duplicate row). -/
theorem C3_thm (poll : Poll) (now : Int) (members : List Member) (V : Finset VoteRow)
    (R : List RemRow) (k : RKind) :
    ((List.count (poll.id, k) (check_and_send_reminders poll now members V R).reminders =
        List.count (poll.id, k) R ∧
      kind_notice_count k (check_and_send_reminders poll now members V R).notices = 0) ∨
     (List.count (poll.id, k) R = 0 ∧
      List.count (poll.id, k) (check_and_send_reminders poll now members V R).reminders = 1 ∧
      (kind_notice_count k (check_and_send_reminders poll now members V R).notices = 1 ∨
        (k = RKind.closed ∧ non_voter_recipients poll members V = ∅ ∧
         kind_notice_count k (check_and_send_reminders poll now members V R).notices = 0)))) ∧
    ((List.count (poll.id, k)
        (send_non_voters_biweekly_reminders poll now members V R).reminders =
        List.count (poll.id, k) R ∧
      kind_notice_count k (send_non_voters_biweekly_reminders poll now members V R).notices
        = 0) ∨
     (List.count (poll.id, k) R = 0 ∧
      List.count (poll.id, k)
        (send_non_voters_biweekly_reminders poll now members V R).reminders = 1 ∧
      kind_notice_count k (send_non_voters_biweekly_reminders poll now members V R).notices
        = 1)) := by
  constructor
  · cases hmd : poll.max_date with
    | some d =>
      rw [check_and_send_reminders_some poll now members V R d hmd]
      by_cases h1 : d ≤ now
      · rw [if_pos h1]
        unfold close_poll
        rcases bool_false_or_true (reminder_already_sent R poll.id RKind.closed)
          with h2 | h2
        · rw [if_neg (by simp [h2])]
          by_cases h3 : non_voter_recipients poll members V = ∅
          · rw [if_pos h3]
            by_cases hk : k = RKind.closed
            · subst hk
              have hnot : (poll.id, RKind.closed) ∉ R := by
                simpa [reminder_already_sent] using h2
              right
              refine ⟨List.count_eq_zero.mpr hnot, ?_, Or.inr ⟨rfl, h3, rfl⟩⟩
              show List.count (poll.id, RKind.closed)
                  (mark_reminder_sent R poll.id RKind.closed) = 1
              rw [count_mark_reminder_sent, if_pos rfl, List.count_eq_zero.mpr hnot]
            · left
              refine ⟨?_, rfl⟩
              show List.count (poll.id, k) (mark_reminder_sent R poll.id RKind.closed) =
                  List.count (poll.id, k) R
              rw [count_mark_reminder_sent, if_neg (by simp [hk]), Nat.add_zero]
          · rw [if_neg h3]
            exact fired_once R poll.id k RKind.closed (non_voter_recipients poll members V)
              _ h2
        · rw [if_pos h2]
          exact Or.inl ⟨rfl, rfl⟩
      · rw [if_neg h1]
        by_cases h2 : 47 * 3600 ≤ d - now ∧ d - now ≤ 49 * 3600
        · rw [if_pos h2]
          rcases bool_false_or_true
            (reminder_already_sent R poll.id RKind.j_minus_2_waiting) with h3 | h3
          · rw [if_neg (by simp [h3])]
            exact fired_once R poll.id k RKind.j_minus_2_waiting
              (waiting_recipients poll.id members V) _ h3
          · rw [if_pos h3]
            exact Or.inl ⟨rfl, rfl⟩
        · rw [if_neg h2]
          by_cases h3 : 23 * 3600 ≤ d - now ∧ d - now ≤ 25 * 3600
          · rw [if_pos h3]
            rcases bool_false_or_true
              (reminder_already_sent R poll.id RKind.j_minus_1_waiting) with h4 | h4
            · rw [if_neg (by simp [h4])]
              exact fired_once R poll.id k RKind.j_minus_1_waiting
                (waiting_recipients poll.id members V) _ h4
            · rw [if_pos h4]
              exact Or.inl ⟨rfl, rfl⟩
          · rw [if_neg h3]
            exact Or.inl ⟨rfl, rfl⟩
    | none =>
      rw [check_and_send_reminders_none poll now members V R hmd]
      by_cases hp : poll.is_presence_poll = true
      · rw [if_pos hp]
        have hfold := weekly_foldl_once poll now members V k
          ((List.range (Int.tdiv (Int.fdiv (now - poll.created_at) 86400) 7).toNat).map
            (fun i => i + 1)) (R, [])
        unfold once_rel at hfold
        rcases hfold with ⟨hc, hn⟩ | ⟨hz, ho, hn⟩
        · exact Or.inl ⟨hc, hn⟩
        · exact Or.inr ⟨hz, ho, Or.inl hn⟩
      · rw [if_neg hp]
        exact Or.inl ⟨rfl, rfl⟩
  · rw [send_non_voters_biweekly_eq poll now members V R]
    rcases bool_false_or_true (open_poll_filter poll now) with h1 | h1
    · rw [if_neg (by simp [h1])]
      exact Or.inl ⟨rfl, rfl⟩
    · rw [if_pos h1]
      by_cases h2 : 0 < Int.fdiv (now - poll.created_at) 86400 ∧
          Int.emod (Int.fdiv (now - poll.created_at) 86400) 2 = 0
      · rw [if_pos h2]
        rcases bool_false_or_true (reminder_already_sent R poll.id
            (RKind.non_voters_day (Int.fdiv (now - poll.created_at) 86400))) with h3 | h3
        · rw [if_neg (by simp [h3])]
          rcases fired_once R poll.id k
              (RKind.non_voters_day (Int.fdiv (now - poll.created_at) 86400))
              (non_voter_recipients poll members V) False h3 with ⟨hc, hn⟩ | ⟨hz, ho, hn⟩
          · exact Or.inl ⟨hc, hn⟩
          · rcases hn with hn | hfalse
            · exact Or.inr ⟨hz, ho, hn⟩
            · exact hfalse.elim
        · rw [if_pos h3]
          exact Or.inl ⟨rfl, rfl⟩
      · rw [if_neg h2]
        exact Or.inl ⟨rfl, rfl⟩

/-- C4, counterexample: the daily trigger's poll filter is
`max_date IS NULL OR max_date > now`, so a poll WITH a voting deadline
(still in the future) also receives the periodic non-voter nudge: two
days after creation the poll below, whose deadline is 200000, fires
`non_voters_day_2` — the claim's "only polls that have no voting
deadline" is false. -/
theorem C4_counterexample :
    (Poll.mk 1 false true 300000 (some 200000) 0).max_date = some 200000 ∧
    send_non_voters_biweekly_reminders (Poll.mk 1 false true 300000 (some 200000) 0) 172800
        [Member.mk 4 false true] (∅ : Finset VoteRow) [] =
      ⟨[(1, RKind.non_voters_day 2)], [⟨RKind.non_voters_day 2, ({4} : Finset Nat)⟩], false⟩ := by
  refine ⟨rfl, by decide⟩

/-- C4, amended: the periodic non-voter nudge fires for every poll
passing the open filter (no deadline, or a deadline still in the
future), on the daily trigger only, when the whole-day age is positive
and even and the `non_voters_day_<d>` kind is unfired; its recipients
are the complement of the voters among the non-bot readable members,
with presence-poll Waiting voters still included. The hourly tick never
writes a `non_voters_day` record. -/
theorem C4_thm (poll : Poll) (now : Int) (members : List Member) (V : Finset VoteRow)
    (R : List RemRow)
    (hopen : open_poll_filter poll now = true)
    (hdays : 0 < Int.fdiv (now - poll.created_at) 86400)
    (heven : Int.emod (Int.fdiv (now - poll.created_at) 86400) 2 = 0)
    (hns : reminder_already_sent R poll.id
      (RKind.non_voters_day (Int.fdiv (now - poll.created_at) 86400)) = false) :
    send_non_voters_biweekly_reminders poll now members V R =
      ⟨mark_reminder_sent R poll.id
         (RKind.non_voters_day (Int.fdiv (now - poll.created_at) 86400)),
       [⟨RKind.non_voters_day (Int.fdiv (now - poll.created_at) 86400),
         non_voter_recipients poll members V⟩], false⟩ ∧
    (∀ r ∈ (check_and_send_reminders poll now members V R).reminders,
      r ∈ R ∨ ∀ day : Int, r.2 ≠ RKind.non_voters_day day) := by
  constructor
  · rw [send_non_voters_biweekly_eq poll now members V R]
    rw [if_pos hopen, if_pos ⟨hdays, heven⟩, if_neg (by simp [hns])]
  · exact fun r hr => hourly_tick_no_non_voters_kind poll now members V R r hr

/-- C4, witness: a deadline-free poll two days old fires
`non_voters_day_2`; the accompanying hourly tick writes no such record. -/
theorem C4_witness :
    send_non_voters_biweekly_reminders (Poll.mk 1 false true 999 none 0) 172800 []
        (∅ : Finset VoteRow) [] =
      ⟨mark_reminder_sent [] 1 (RKind.non_voters_day (Int.fdiv (172800 - 0) 86400)),
       [⟨RKind.non_voters_day (Int.fdiv (172800 - 0) 86400),
         non_voter_recipients (Poll.mk 1 false true 999 none 0) [] (∅ : Finset VoteRow)⟩],
       false⟩ ∧
    (∀ r ∈ (check_and_send_reminders (Poll.mk 1 false true 999 none 0) 172800 []
        (∅ : Finset VoteRow) []).reminders,
      r ∈ ([] : List RemRow) ∨ ∀ day : Int, r.2 ≠ RKind.non_voters_day day) := by
  have h := C4_thm (Poll.mk 1 false true 999 none 0) 172800 [] (∅ : Finset VoteRow) []
    (by decide) (by decide) (by decide) (by decide)
  exact ⟨by rw [h.1], h.2⟩

/-- C5, counterexample: a poll past its deadline with an empty
recipient set (here: no members at all) is recorded as `closed`, but the
voting buttons are NOT removed — `close_poll` performs the
`message.edit(view=None)` only inside the `if to_notify:` branch, so the
removal does not happen "in every case". -/
theorem C5_counterexample :
    (close_poll (Poll.mk 1 true false 999 (some 100) 0) [] (∅ : Finset VoteRow) []).view_removed
      = false ∧
    (close_poll (Poll.mk 1 true false 999 (some 100) 0) [] (∅ : Finset VoteRow) []).reminders =
      [(1, RKind.closed)] := by
  refine ⟨by decide, by decide⟩

/-- C5, amended: when the scheduler sees a passed deadline it runs
`close_poll`; if the `closed` kind is unfired, the record is written in
every case, but the buttons are removed and the closure batch sent to
the AwaitingSet only when that set is non-empty; when it is empty the
buttons stay in place. The recipient set the code computes coincides
with the spec's AwaitingSet. -/
theorem C5_thm (poll : Poll) (now d : Int) (members : List Member) (V : Finset VoteRow)
    (R : List RemRow) (hd : poll.max_date = some d) (hnow : d ≤ now)
    (hns : reminder_already_sent R poll.id RKind.closed = false) :
    check_and_send_reminders poll now members V R = close_poll poll members V R ∧
    (close_poll poll members V R).reminders = mark_reminder_sent R poll.id RKind.closed ∧
    (non_voter_recipients poll members V ≠ ∅ →
      close_poll poll members V R =
        ⟨mark_reminder_sent R poll.id RKind.closed,
         [⟨RKind.closed, non_voter_recipients poll members V⟩], true⟩) ∧
    (non_voter_recipients poll members V = ∅ →
      close_poll poll members V R =
        ⟨mark_reminder_sent R poll.id RKind.closed, [], false⟩) ∧
    non_voter_recipients poll members V = spec_awaiting_set poll members V := by
  have hclose : check_and_send_reminders poll now members V R = close_poll poll members V R := by
    rw [check_and_send_reminders_some poll now members V R d hd, if_pos hnow]
  have hns2 : ¬ (reminder_already_sent R poll.id RKind.closed = true) := by simp [hns]
  refine ⟨hclose, ?_, ?_, ?_, non_voter_recipients_eq_spec poll members V⟩
  · unfold close_poll
    rw [if_neg hns2]
    by_cases he : non_voter_recipients poll members V = ∅
    · rw [if_pos he]
    · rw [if_neg he]
  · intro hne
    unfold close_poll
    rw [if_neg hns2, if_neg hne]
  · intro he
    unfold close_poll
    rw [if_neg hns2, if_pos he]

/-- C5, witness: with one unreached non-bot member the closure fires:
record written, one batch to that member, buttons removed. -/
theorem C5_witness :
    close_poll (Poll.mk 1 true false 999 (some 100) 0) [Member.mk 2 false true]
        (∅ : Finset VoteRow) [] =
      ⟨[(1, RKind.closed)], [⟨RKind.closed, ({2} : Finset Nat)⟩], true⟩ := by
  have h := (C5_thm (Poll.mk 1 true false 999 (some 100) 0) 100 100 [Member.mk 2 false true]
      (∅ : Finset VoteRow) [] rfl (by decide) (by decide)).2.2.1 (by decide)
  rw [h]
  decide

/-- C6: once the `closed` kind has fired for a poll with a passed
deadline, a subsequent hourly tick takes the closure branch, finds the
record, and does nothing: no deadline-relative and no weekly reminder
can fire for that poll again (the weekly branch is unreachable for a
poll with a deadline in any case). -/
theorem C6_thm (poll : Poll) (now d : Int) (members : List Member) (V : Finset VoteRow)
    (R : List RemRow) (hd : poll.max_date = some d) (hnow : d ≤ now)
    (hs : reminder_already_sent R poll.id RKind.closed = true) :
    check_and_send_reminders poll now members V R = ⟨R, [], false⟩ := by
  rw [check_and_send_reminders_some poll now members V R d hd, if_pos hnow]
  unfold close_poll
  rw [if_pos hs]

/-- C6, witness: a tick after closure of a poll whose `closed` record
exists changes nothing and notifies nobody. -/
theorem C6_witness :
    check_and_send_reminders (Poll.mk 1 true false 999 (some 100) 0) 200 [] (∅ : Finset VoteRow)
        [(1, RKind.closed)] = ⟨[(1, RKind.closed)], [], false⟩ :=
  C6_thm (Poll.mk 1 true false 999 (some 100) 0) 200 100 [] ∅ [(1, RKind.closed)] rfl
    (by decide) (by decide)

/-- C9, counterexample: an event 730 days plus 60 seconds ahead is
"more than 730 days ahead", yet validation accepts it and the poll is
created: the code compares the floor of whole days
(`(event_dt - now).days > 730`), so only events at least 731 whole days
ahead are rejected. -/
theorem C9_counterexample :
    ((730 : Int) * 86400 < 730 * 86400 + 60) ∧
    validate_dates 0 (730 * 86400 + 60) none = ValidationResult.ok ∧
    (date_modal_submit 0 (730 * 86400 + 60) none true false).1 ≠ none := by
  refine ⟨by decide, by decide, by decide⟩

/-- C9, amended: poll creation fails exactly when the event date is
before now, or the event is at least 731 whole days ahead (the floor of
(event − now) in days exceeds 730 — NOT merely "more than 730 days"),
or the deadline is before now, or the deadline is strictly after the
event time, or a non-presence poll has exactly one choice; a validation
failure creates no poll record, and a deadline equal to the event time
changes nothing about acceptance. -/
theorem C9_thm (now event_dt : Int) (max_dt : Option Int) (single : Bool)
    (choices : List (Option String)) (is_presence allow_multiple : Bool) :
    (validate_dates now event_dt max_dt ≠ ValidationResult.ok ↔
      (event_dt < now ∨ MAX_EVENT_DAYS_AHEAD < Int.fdiv (event_dt - now) 86400 ∨
        (∃ m, max_dt = some m ∧ (m < now ∨ event_dt < m)))) ∧
    ((date_modal_submit now event_dt max_dt is_presence allow_multiple).1 = none ↔
      validate_dates now event_dt max_dt ≠ ValidationResult.ok) ∧
    (validate_dates now event_dt (some event_dt) = ValidationResult.ok ↔
      validate_dates now event_dt none = ValidationResult.ok) ∧
    (poll_command single choices = PollCommandResult.too_few_choices ↔
      ((choices.filterMap id).filter (fun c => c != "") ≠ [] ∧
        ((choices.filterMap id).filter (fun c => c != "")).length < 2)) := by
  refine ⟨?_, ?_, ?_, ?_⟩
  · unfold validate_dates
    cases max_dt with
    | none => split_ifs with h1 h2 <;> simp_all
    | some m =>
      split_ifs with h1 h2 <;> simp_all
      split_ifs with h3 h4 <;> simp_all
  · unfold date_modal_submit
    split_ifs with h <;> simp [h]
  · unfold validate_dates
    split_ifs with h1 h2 <;> simp_all
  · simp only [poll_command]
    split_ifs with h1 h2 <;> simp_all

/-- C10: when the read of the notification ledger raises, the
already-sent check returns true, so the guarded reminder step dispatches
no notification and writes no ReminderRecord — a storage failure in the
check can only suppress a reminder, never duplicate one. -/
theorem C10_thm (R : List RemRow) (p : Nat) (k : RKind) (recips : Finset Nat) :
    reminder_already_sent_checked (Except.error ()) p k = true ∧
    guarded_reminder_step (Except.error ()) R p k recips = (R, none) :=
  ⟨rfl, rfl⟩

end PollBot
